import Mathlib

/-!
Verification of the ratemycourses course-rating application.

This file gives a shallow embedding of the data model and the operations of
`courses/models.py`, `courses/views.py` and `courses/forms.py`, and proves or
refutes the specification claims about them.

Conventions: Django model rows become Lean structures; `PositiveSmallIntegerField`
becomes `Nat`; nullable integer columns become `Option Nat`; Python arithmetic in
`calculate_weighted_rating` (which mixes ints and floats) is idealized as exact
rational arithmetic (`Rat`); Python `round(x, 2)` is modelled as
round-half-to-even at two decimal places on the exact rational value.
Request handlers that read the store and then write it are modelled as pure
functions from an explicit store (a list of rows) to an outcome and a new store;
where a handler's read and its subsequent save can observe different database
states (the check-then-insert race the spec discusses), the function takes two
store snapshots: the one seen by the initial read and the one in force at save
time.
-/

/-- The ten scored dimensions of a `Rating`, in the iteration order of the
`rating_fields` dict in `UserProfile.calculate_weighted_rating`
(models.py lines 354-365). -/
inductive Dim where
  | workload
  | difficulty
  | learningGain
  | teachingQuality
  | assessmentFairness
  | practicalTheoretical
  | relevance
  | materials
  | support
  | organization
deriving DecidableEq, Repr

/-- Iteration order of the `rating_fields` dict in
`UserProfile.calculate_weighted_rating`. -/
def dims : List Dim :=
  [Dim.workload, Dim.difficulty, Dim.learningGain, Dim.teachingQuality,
   Dim.assessmentFairness, Dim.practicalTheoretical, Dim.relevance,
   Dim.materials, Dim.support, Dim.organization]

/-- A row of the `Rating` model (models.py lines 92-236): course and user
foreign keys, the overall 1-5 rating, ten optional dimension values (nine on a
1-5 scale, the practical/theoretical balance on a 0-100 scale), ten optional
free-text elaborations, a comment, year and semester tags, and the moderation
flag `is_disabled` (default `False`). -/
structure Rating where
  id : Nat
  course : Nat
  user : Nat
  rating : Nat
  workload_rating : Option Nat
  difficulty_rating : Option Nat
  learning_gain_rating : Option Nat
  teaching_quality_rating : Option Nat
  assessment_fairness_rating : Option Nat
  practical_theoretical_balance : Option Nat
  relevance_rating : Option Nat
  materials_rating : Option Nat
  support_rating : Option Nat
  organization_rating : Option Nat
  workload_text : String
  difficulty_text : String
  learning_gain_text : String
  teaching_quality_text : String
  assessment_fairness_text : String
  practical_theoretical_text : String
  relevance_text : String
  materials_text : String
  support_text : String
  organization_text : String
  comment : String
  year : Nat
  semester : String
  is_disabled : Bool
deriving DecidableEq, Repr

/-- A row of the `UserProfile` model (models.py lines 239-324): ten importance
weights (0-100, default 20) and the theory-practical preference (0-100,
default 50). -/
structure UserProfile where
  workload_weight : Nat
  difficulty_weight : Nat
  learning_gain_weight : Nat
  teaching_quality_weight : Nat
  assessment_fairness_weight : Nat
  practical_theoretical_weight : Nat
  relevance_weight : Nat
  materials_weight : Nat
  support_weight : Nat
  organization_weight : Nat
  practical_theoretical_preference : Nat
deriving DecidableEq, Repr

/-- The dimension value stored on a `Rating`, i.e. `getattr(rating, rating_field)`
for the field names in the `rating_fields` dict. -/
def ratingValue (r : Rating) : Dim → Option Nat
  | Dim.workload => r.workload_rating
  | Dim.difficulty => r.difficulty_rating
  | Dim.learningGain => r.learning_gain_rating
  | Dim.teachingQuality => r.teaching_quality_rating
  | Dim.assessmentFairness => r.assessment_fairness_rating
  | Dim.practicalTheoretical => r.practical_theoretical_balance
  | Dim.relevance => r.relevance_rating
  | Dim.materials => r.materials_rating
  | Dim.support => r.support_rating
  | Dim.organization => r.organization_rating

/-- The profile weight for a dimension, mirroring `UserProfile.get_weights`
(models.py lines 329-342). -/
def weight (p : UserProfile) : Dim → Nat
  | Dim.workload => p.workload_weight
  | Dim.difficulty => p.difficulty_weight
  | Dim.learningGain => p.learning_gain_weight
  | Dim.teachingQuality => p.teaching_quality_weight
  | Dim.assessmentFairness => p.assessment_fairness_weight
  | Dim.practicalTheoretical => p.practical_theoretical_weight
  | Dim.relevance => p.relevance_weight
  | Dim.materials => p.materials_weight
  | Dim.support => p.support_weight
  | Dim.organization => p.organization_weight

/-- The value a populated dimension contributes before weighting
(models.py lines 372-385): the raw score for the nine 1-5 dimensions; for the
practical/theoretical balance, the alignment with the profile's preference,
`alignment = 1 - abs(balance - preference) / 100`, rescaled to 1-5 as
`alignment * 4 + 1`. -/
def normalizedValue (p : UserProfile) (d : Dim) (v : Nat) : Rat :=
  if d = Dim.practicalTheoretical then
    ((1 : Rat) - |(v : Rat) - (p.practical_theoretical_preference : Rat)| / 100) * 4 + 1
  else (v : Rat)

/-- One step of the accumulation loop in `calculate_weighted_rating`
(models.py lines 367-388): a `None` dimension is skipped outright, a populated
one adds `normalized_value * weight` to `weighted_sum` and `weight` to
`total_weight`. -/
def includeDim (p : UserProfile) (r : Rating) (acc : Rat × Nat) (d : Dim) : Rat × Nat :=
  match ratingValue r d with
  | none => acc
  | some v => (acc.1 + normalizedValue p d v * (weight p d : Rat), acc.2 + weight p d)

/-- The `(weighted_sum, total_weight)` pair accumulated by the loop of
`calculate_weighted_rating` over the ten dimensions, starting from `(0, 0)`. -/
def weightedTotals (p : UserProfile) (r : Rating) : Rat × Nat :=
  dims.foldl (includeDim p r) (0, 0)

/-- Python `round` to an integer, idealized on exact rationals: round to the
nearest integer, ties going to the even neighbour (round-half-to-even). -/
def pyRound (x : Rat) : Int :=
  if x - ⌊x⌋ < 1 / 2 then ⌊x⌋
  else if 1 / 2 < x - ⌊x⌋ then ⌊x⌋ + 1
  else if ⌊x⌋ % 2 = 0 then ⌊x⌋ else ⌊x⌋ + 1

/-- Python `round(x, 2)` idealized on exact rationals: round `100 * x`
half-to-even and divide back by 100. -/
def pyRound2 (x : Rat) : Rat :=
  (pyRound (x * 100) : Rat) / 100

/-- `UserProfile.calculate_weighted_rating(rating)` (models.py lines 344-393):
`None` input gives `None`; otherwise accumulate weighted sum and total weight
over the populated dimensions and return `round(weighted_sum / total_weight, 2)`,
or `None` when `total_weight == 0`. -/
def calculate_weighted_rating (p : UserProfile) (r? : Option Rating) : Option Rat :=
  match r? with
  | none => none
  | some r =>
    let t := weightedTotals p r
    if t.2 = 0 then none else some (pyRound2 (t.1 / (t.2 : Rat)))

/-- Modelled from the spec wording of algorithm step 1: the dimensions of the
Rating carrying a non-null value, the only ones the spec says may enter the
weighted sum and the denominator. -/
def includedDims (r : Rating) : List Dim :=
  dims.filter (fun d => (ratingValue r d).isSome)

/-- Modelled from the spec wording of algorithm step 4: the weighted sum taken
over exactly the included (non-null) dimensions. -/
def specWeightedSum (p : UserProfile) (r : Rating) : Rat :=
  ((includedDims r).map
    (fun d => normalizedValue p d ((ratingValue r d).getD 0) * (weight p d : Rat))).sum

/-- Modelled from the spec wording of algorithm step 4: the total weight taken
over exactly the included (non-null) dimensions; a skipped dimension's weight
does not enter. -/
def specTotalWeight (p : UserProfile) (r : Rating) : Nat :=
  ((includedDims r).map (weight p)).sum

/-- Django `Avg` over a list of integer values: `NULL` (`none`) on an empty
set, otherwise the exact mean. -/
def listAvg (l : List Nat) : Option Rat :=
  if l.length = 0 then none else some ((l.map (fun n => (n : Rat))).sum / (l.length : Rat))

/-- The ratings of a course that the course-detail page reads:
`course.ratings.filter(is_disabled=False)` (views.py line 114). -/
def courseDetailRatings (db : List Rating) (c : Nat) : List Rating :=
  db.filter (fun r => r.course == c && r.is_disabled == false)

/-- The aggregate `(avg, count)` the course-detail page computes over its
(disabled-excluded) ratings: `qs.aggregate(avg=Avg("rating"), count=Count("id"))`
(views.py lines 117-131). -/
def courseDetailAgg (db : List Rating) (c : Nat) : Option Rat × Nat :=
  (listAvg ((courseDetailRatings db c).map (fun r => r.rating)),
   (courseDetailRatings db c).length)

/-- The ratings of a course that the course-list annotation reads: the bare
reverse relation `ratings`, with no `is_disabled` filter (views.py lines 67-70). -/
def courseListRatings (db : List Rating) (c : Nat) : List Rating :=
  db.filter (fun r => r.course == c)

/-- The `(avg_rating, rating_count)` pair the course list view annotates on a
course: `qs.annotate(avg_rating=Avg("ratings__rating"), rating_count=Count("ratings"))`
(views.py lines 67-70); note the annotation is over all of the course's
ratings, disabled ones included. -/
def courseListAgg (db : List Rating) (c : Nat) : Option Rat × Nat :=
  (listAvg ((courseListRatings db c).map (fun r => r.rating)),
   (courseListRatings db c).length)

/-- A row of the `RatingFlag` model (models.py lines 396-414): the flagged
rating, the flagging user, and the required reason text. -/
structure RatingFlag where
  rating : Nat
  flagged_by : Nat
  reason : String
deriving DecidableEq, Repr

/-- Whether a flag by `actor` on rating `rid` exists in the store, mirroring
`RatingFlag.objects.filter(rating=rating, flagged_by=request.user).first()`
being non-`None` (views.py line 608), and likewise the
`uniq_user_rating_flag` unique constraint (models.py lines 404-408). -/
def hasFlag (flags : List RatingFlag) (rid actor : Nat) : Bool :=
  flags.any (fun f => f.rating == rid && f.flagged_by == actor)

/-- Python `str.strip()`, the whitespace stripping Django applies to a
required text form field before checking it is non-empty: drop whitespace
from both ends. -/
def pyStrip (s : String) : String :=
  String.mk (((s.data.dropWhile Char.isWhitespace).reverse.dropWhile Char.isWhitespace).reverse)

/-- Outcome of a POST to the `flag_rating` view. -/
inductive FlagOutcome where
  | selfFlagMessage
  | alreadyFlaggedInfo
  | formInvalid
  | created
  | uncaughtIntegrityError
deriving DecidableEq, Repr

/-- The POST path of the `flag_rating` view (views.py lines 597-621) over an
explicit flag store. `checkFlags` is the store snapshot seen by the duplicate
pre-check at line 608; `saveFlags` is the store in force when `flag.save()`
runs at line 619 (they differ exactly when a concurrent flag lands in
between). In order: the self-flag guard (lines 603-605), the duplicate
pre-check (lines 608-611), form validation (`reason` is a required, stripped
text field), then the save; the save has no `IntegrityError` handler, so a
`uniq_user_rating_flag` violation at save time surfaces as an uncaught
integrity error. -/
def flag_rating (checkFlags saveFlags : List RatingFlag) (r : Rating)
    (actor : Nat) (reason : String) : FlagOutcome × List RatingFlag :=
  if r.user == actor then (FlagOutcome.selfFlagMessage, saveFlags)
  else if hasFlag checkFlags r.id actor then (FlagOutcome.alreadyFlaggedInfo, saveFlags)
  else if pyStrip reason = "" then (FlagOutcome.formInvalid, saveFlags)
  else if hasFlag saveFlags r.id actor then (FlagOutcome.uncaughtIntegrityError, saveFlags)
  else (FlagOutcome.created, saveFlags ++ [⟨r.id, actor, reason⟩])

/-- The cleaned data of a valid `RatingForm` submission (forms.py lines 7-62):
the overall rating, comment, year, semester, the ten optional dimension values
and the ten elaboration texts. -/
structure RatingFormData where
  rating : Nat
  comment : String
  year : Nat
  semester : String
  workload_rating : Option Nat
  difficulty_rating : Option Nat
  learning_gain_rating : Option Nat
  teaching_quality_rating : Option Nat
  assessment_fairness_rating : Option Nat
  practical_theoretical_balance : Option Nat
  relevance_rating : Option Nat
  materials_rating : Option Nat
  support_rating : Option Nat
  organization_rating : Option Nat
  workload_text : String
  difficulty_text : String
  learning_gain_text : String
  teaching_quality_text : String
  assessment_fairness_text : String
  practical_theoretical_text : String
  relevance_text : String
  materials_text : String
  support_text : String
  organization_text : String
deriving DecidableEq, Repr

/-- The cleaned dimension value of a form submission, by dimension. -/
def formValue (d : RatingFormData) : Dim → Option Nat
  | Dim.workload => d.workload_rating
  | Dim.difficulty => d.difficulty_rating
  | Dim.learningGain => d.learning_gain_rating
  | Dim.teachingQuality => d.teaching_quality_rating
  | Dim.assessmentFairness => d.assessment_fairness_rating
  | Dim.practicalTheoretical => d.practical_theoretical_balance
  | Dim.relevance => d.relevance_rating
  | Dim.materials => d.materials_rating
  | Dim.support => d.support_rating
  | Dim.organization => d.organization_rating

/-- Python `value or None` applied to a cleaned optional integer: both `None`
and the falsy `0` become `None`; every other value passes through. This is the
`data.get("...") or None` idiom of views.py lines 180-189, 213-222 and
484-493. -/
def pyOrNone (v : Option Nat) : Option Nat :=
  match v with
  | some 0 => none
  | some n => some n
  | none => none

/-- The create branch of `add_rating` (views.py lines 205-234):
`Rating.objects.create(...)` with every dimension value passed through
`or None`, the texts copied, and `is_disabled` left at its default `False`.
`rid` stands for the primary key the store assigns. -/
def createRating (rid course user : Nat) (d : RatingFormData) : Rating :=
  { id := rid
    course := course
    user := user
    rating := d.rating
    workload_rating := pyOrNone d.workload_rating
    difficulty_rating := pyOrNone d.difficulty_rating
    learning_gain_rating := pyOrNone d.learning_gain_rating
    teaching_quality_rating := pyOrNone d.teaching_quality_rating
    assessment_fairness_rating := pyOrNone d.assessment_fairness_rating
    practical_theoretical_balance := pyOrNone d.practical_theoretical_balance
    relevance_rating := pyOrNone d.relevance_rating
    materials_rating := pyOrNone d.materials_rating
    support_rating := pyOrNone d.support_rating
    organization_rating := pyOrNone d.organization_rating
    workload_text := d.workload_text
    difficulty_text := d.difficulty_text
    learning_gain_text := d.learning_gain_text
    teaching_quality_text := d.teaching_quality_text
    assessment_fairness_text := d.assessment_fairness_text
    practical_theoretical_text := d.practical_theoretical_text
    relevance_text := d.relevance_text
    materials_text := d.materials_text
    support_text := d.support_text
    organization_text := d.organization_text
    comment := d.comment
    year := d.year
    semester := d.semester
    is_disabled := false }

/-- The update branch of `add_rating` (views.py lines 174-201): the existing
rating's scalar fields, dimension values (each through `or None`) and texts are
overwritten from the form; course, user, id and `is_disabled` are untouched. -/
def updateRatingFields (r : Rating) (d : RatingFormData) : Rating :=
  { r with
    rating := d.rating
    comment := d.comment
    year := d.year
    semester := d.semester
    workload_rating := pyOrNone d.workload_rating
    difficulty_rating := pyOrNone d.difficulty_rating
    learning_gain_rating := pyOrNone d.learning_gain_rating
    teaching_quality_rating := pyOrNone d.teaching_quality_rating
    assessment_fairness_rating := pyOrNone d.assessment_fairness_rating
    practical_theoretical_balance := pyOrNone d.practical_theoretical_balance
    relevance_rating := pyOrNone d.relevance_rating
    materials_rating := pyOrNone d.materials_rating
    support_rating := pyOrNone d.support_rating
    organization_rating := pyOrNone d.organization_rating
    workload_text := d.workload_text
    difficulty_text := d.difficulty_text
    learning_gain_text := d.learning_gain_text
    teaching_quality_text := d.teaching_quality_text
    assessment_fairness_text := d.assessment_fairness_text
    practical_theoretical_text := d.practical_theoretical_text
    relevance_text := d.relevance_text
    materials_text := d.materials_text
    support_text := d.support_text
    organization_text := d.organization_text }

/-- The POST path of the `edit_rating` view (views.py lines 470-505): the
same field assignments as the update branch of `add_rating`, dimension values
again passed through `or None`. -/
def editRatingFields (r : Rating) (d : RatingFormData) : Rating :=
  { r with
    rating := d.rating
    comment := d.comment
    year := d.year
    semester := d.semester
    workload_rating := pyOrNone d.workload_rating
    difficulty_rating := pyOrNone d.difficulty_rating
    learning_gain_rating := pyOrNone d.learning_gain_rating
    teaching_quality_rating := pyOrNone d.teaching_quality_rating
    assessment_fairness_rating := pyOrNone d.assessment_fairness_rating
    practical_theoretical_balance := pyOrNone d.practical_theoretical_balance
    relevance_rating := pyOrNone d.relevance_rating
    materials_rating := pyOrNone d.materials_rating
    support_rating := pyOrNone d.support_rating
    organization_rating := pyOrNone d.organization_rating
    workload_text := d.workload_text
    difficulty_text := d.difficulty_text
    learning_gain_text := d.learning_gain_text
    teaching_quality_text := d.teaching_quality_text
    assessment_fairness_text := d.assessment_fairness_text
    practical_theoretical_text := d.practical_theoretical_text
    relevance_text := d.relevance_text
    materials_text := d.materials_text
    support_text := d.support_text
    organization_text := d.organization_text }

/-- Whether the store holds a rating for the `(course, user)` pair, the
predicate of the `uniq_user_course` unique constraint
(models.py lines 211-213). -/
def hasPair (db : List Rating) (c u : Nat) : Bool :=
  db.any (fun r => r.course == c && r.user == u)

/-- Number of ratings in the store for the `(course, user)` pair. -/
def pairCount (db : List Rating) (c u : Nat) : Nat :=
  (db.filter (fun r => r.course == c && r.user == u)).length

/-- The store satisfies the `uniq_user_course` constraint: at most one rating
per `(course, user)` pair. -/
def atMostOnePerPair (db : List Rating) : Prop :=
  ∀ c u, pairCount db c u ≤ 1

/-- `Rating.objects.filter(course=course, user=request.user).first()`
(views.py line 165). -/
def findExisting (db : List Rating) (c u : Nat) : Option Rating :=
  (db.filter (fun r => r.course == c && r.user == u)).head?

/-- Outcome of a valid POST to the `add_rating` view. -/
inductive AddOutcome where
  | createdMessage
  | updatedMessage
  | oneRatingPerCourseMessage
deriving DecidableEq, Repr

/-- The valid-form POST path of the `add_rating` view (views.py lines
161-238) over an explicit rating store. `checkDb` is the snapshot read by the
`existing_rating` lookup at line 165; `saveDb` is the store in force when the
transaction at lines 172-235 commits. If an existing rating was found, its
fields are overwritten (the row for the pair is updated in place); otherwise a
new row is inserted, and a `uniq_user_course` violation at insert time is
caught by the `except IntegrityError` arm at line 237, which rolls the atomic
block back, leaves the store unchanged and reports the dedicated
one-rating-per-course message. `rid` is the primary key a fresh insert would
receive. -/
def add_rating (checkDb saveDb : List Rating) (rid c u : Nat)
    (d : RatingFormData) : AddOutcome × List Rating :=
  match findExisting checkDb c u with
  | some _ =>
    (AddOutcome.updatedMessage,
     saveDb.map (fun r => if r.course == c && r.user == u then updateRatingFields r d else r))
  | none =>
    if hasPair saveDb c u then (AddOutcome.oneRatingPerCourseMessage, saveDb)
    else (AddOutcome.createdMessage, saveDb ++ [createRating rid c u d])

/-- The cleaned data of a valid `UserProfileForm` submission (forms.py lines
122-202): ten importance levels and the practical/theoretical preference, all
integer form fields. -/
structure ProfileFormData where
  workload_importance : Option Int
  difficulty_importance : Option Int
  learning_gain_importance : Option Int
  teaching_quality_importance : Option Int
  assessment_fairness_importance : Option Int
  practical_theoretical_importance : Option Int
  relevance_importance : Option Int
  materials_importance : Option Int
  support_importance : Option Int
  organization_importance : Option Int
  practical_theoretical_preference : Option Int
deriving DecidableEq, Repr

/-- The `importance_to_weight` table of `UserProfileForm.save` (forms.py lines
273-279), including the `.get(..., 30)` default for keys outside the table. -/
def importance_to_weight (i : Int) : Nat :=
  if i = 1 then 0
  else if i = 2 then 10
  else if i = 3 then 20
  else if i = 4 then 50
  else if i = 5 then 80
  else 30

/-- One weight assignment of `UserProfileForm.save` (forms.py lines 296-299):
the weight is set from the table when the importance value is present and in
1..5, and left unchanged otherwise. -/
def applyImportance (v : Option Int) (old : Nat) : Nat :=
  match v with
  | some i => if 1 ≤ i ∧ i ≤ 5 then importance_to_weight i else old
  | none => old

/-- The preference assignment of `UserProfileForm.save` (forms.py lines
302-304): set when present and in 0..100, otherwise unchanged. -/
def applyPreference (v : Option Int) (old : Nat) : Nat :=
  match v with
  | some i => if 0 ≤ i ∧ i ≤ 100 then i.toNat else old
  | none => old

/-- `UserProfileForm.save` (forms.py lines 271-306): each of the ten weight
fields is set from the importance table, and the preference from its own
range-guarded assignment. -/
def userProfileFormSave (d : ProfileFormData) (inst : UserProfile) : UserProfile :=
  { workload_weight := applyImportance d.workload_importance inst.workload_weight
    difficulty_weight := applyImportance d.difficulty_importance inst.difficulty_weight
    learning_gain_weight := applyImportance d.learning_gain_importance inst.learning_gain_weight
    teaching_quality_weight := applyImportance d.teaching_quality_importance inst.teaching_quality_weight
    assessment_fairness_weight := applyImportance d.assessment_fairness_importance inst.assessment_fairness_weight
    practical_theoretical_weight := applyImportance d.practical_theoretical_importance inst.practical_theoretical_weight
    relevance_weight := applyImportance d.relevance_importance inst.relevance_weight
    materials_weight := applyImportance d.materials_importance inst.materials_weight
    support_weight := applyImportance d.support_importance inst.support_weight
    organization_weight := applyImportance d.organization_importance inst.organization_weight
    practical_theoretical_preference :=
      applyPreference d.practical_theoretical_preference inst.practical_theoretical_preference }

/-- Lower bound of a dimension's validator (models.py lines 100-149):
`MinValueValidator(1)` for the nine 1-5 dimensions, `MinValueValidator(0)` for
the balance. -/
def dimLB : Dim → Nat
  | Dim.practicalTheoretical => 0
  | _ => 1

/-- Upper bound of a dimension's validator (models.py lines 100-149):
`MaxValueValidator(5)` for the nine 1-5 dimensions, `MaxValueValidator(100)`
for the balance. -/
def dimUB : Dim → Nat
  | Dim.practicalTheoretical => 100
  | _ => 5

/-- A rating is valid when every populated dimension value respects its
model validators. -/
def validRating (r : Rating) : Bool :=
  dims.all (fun d =>
    match ratingValue r d with
    | none => true
    | some v => dimLB d ≤ v && v ≤ dimUB d)

/-- A profile is valid when every weight and the preference respect the 0-100
model validators (models.py lines 244-300). -/
def validProfile (p : UserProfile) : Bool :=
  dims.all (fun d => weight p d ≤ 100) && p.practical_theoretical_preference ≤ 100

/-- A rating fixture with every optional field empty: id 1, course 1, user 1,
overall rating 3, year 2024, summer semester. -/
def emptyRating : Rating :=
  { id := 1, course := 1, user := 1, rating := 3
    workload_rating := none, difficulty_rating := none, learning_gain_rating := none
    teaching_quality_rating := none, assessment_fairness_rating := none
    practical_theoretical_balance := none, relevance_rating := none
    materials_rating := none, support_rating := none, organization_rating := none
    workload_text := "", difficulty_text := "", learning_gain_text := ""
    teaching_quality_text := "", assessment_fairness_text := ""
    practical_theoretical_text := "", relevance_text := "", materials_text := ""
    support_text := "", organization_text := ""
    comment := "", year := 2024, semester := "SS", is_disabled := false }

/-- The default profile the model fields declare: every weight 20,
preference 50. -/
def defaultProfile : UserProfile :=
  { workload_weight := 20, difficulty_weight := 20, learning_gain_weight := 20
    teaching_quality_weight := 20, assessment_fairness_weight := 20
    practical_theoretical_weight := 20, relevance_weight := 20
    materials_weight := 20, support_weight := 20, organization_weight := 20
    practical_theoretical_preference := 50 }

/-- Form-data fixture with every optional dimension empty. -/
def emptyFormData : RatingFormData :=
  { rating := 3, comment := "", year := 2024, semester := "SS"
    workload_rating := none, difficulty_rating := none, learning_gain_rating := none
    teaching_quality_rating := none, assessment_fairness_rating := none
    practical_theoretical_balance := none, relevance_rating := none
    materials_rating := none, support_rating := none, organization_rating := none
    workload_text := "", difficulty_text := "", learning_gain_text := ""
    teaching_quality_text := "", assessment_fairness_text := ""
    practical_theoretical_text := "", relevance_text := "", materials_text := ""
    support_text := "", organization_text := "" }

/-- Rating fixture from the spec scenario: workload 3, difficulty 5, all other
dimensions empty. -/
def wdRating : Rating :=
  { emptyRating with workload_rating := some 3, difficulty_rating := some 5 }

/-- Rating fixture with only the practical/theoretical balance populated,
at 49. -/
def bal49Rating : Rating :=
  { emptyRating with practical_theoretical_balance := some 49 }

/-- Profile fixture with preference 100 and default weights. -/
def hundredPrefProfile : UserProfile :=
  { defaultProfile with practical_theoretical_preference := 100 }

/-- A pre-existing flag by user 2 on rating 1. -/
def flagFixture : RatingFlag :=
  { rating := 1, flagged_by := 2, reason := "prior" }

/-- Rating fixture owned by user 3 (id 1). -/
def ownedRating : Rating :=
  { emptyRating with user := 3 }

/-- A store holding a single disabled five-star rating of course 1. -/
def disabledOnlyDb : List Rating :=
  [{ emptyRating with rating := 5, is_disabled := true }]

/-- Profile-form fixture submitting importance level 4 everywhere and
preference 50. -/
def allFourData : ProfileFormData :=
  { workload_importance := some 4, difficulty_importance := some 4
    learning_gain_importance := some 4, teaching_quality_importance := some 4
    assessment_fairness_importance := some 4, practical_theoretical_importance := some 4
    relevance_importance := some 4, materials_importance := some 4
    support_importance := some 4, organization_importance := some 4
    practical_theoretical_preference := some 50 }

/-- Rating-form fixture submitting a practical/theoretical balance of 0
(purely theoretical) and nothing else optional. -/
def zeroBalData : RatingFormData :=
  { emptyFormData with practical_theoretical_balance := some 0 }

theorem foldl_includeDim_eq (p : UserProfile) (r : Rating) :
    ∀ (L : List Dim) (a : Rat) (b : Nat),
      L.foldl (includeDim p r) (a, b) =
        (a + ((L.filter (fun d => (ratingValue r d).isSome)).map
                (fun d => normalizedValue p d ((ratingValue r d).getD 0) * (weight p d : Rat))).sum,
         b + ((L.filter (fun d => (ratingValue r d).isSome)).map (weight p)).sum) := by
  intro L
  induction L with
  | nil => intro a b; simp
  | cons d L ih =>
    intro a b
    cases h : ratingValue r d with
    | none =>
      simp only [List.foldl_cons, includeDim, h, List.filter_cons, Option.isSome_none,
        Bool.false_eq_true, if_false, ih]
    | some v =>
      simp only [List.foldl_cons, includeDim, h, List.filter_cons, Option.isSome_some,
        if_true, ih, List.map_cons, List.sum_cons, Option.getD_some]
      rw [Prod.mk.injEq]
      exact ⟨by ring, by omega⟩

theorem weightedTotals_eq_spec (p : UserProfile) (r : Rating) :
    weightedTotals p r = (specWeightedSum p r, specTotalWeight p r) := by
  have h := foldl_includeDim_eq p r dims 0 0
  simpa [weightedTotals, specWeightedSum, specTotalWeight, includedDims] using h

theorem calc_eq_spec (p : UserProfile) (r : Rating) :
    calculate_weighted_rating p (some r) =
      if specTotalWeight p r = 0 then none
      else some (pyRound2 (specWeightedSum p r / (specTotalWeight p r : Rat))) := by
  simp [calculate_weighted_rating, weightedTotals_eq_spec]

/-- Claim C1: for every profile and rating, `calculate_weighted_rating`
accumulates its weighted sum and total weight over exactly the dimensions
whose value on the rating is non-null (a skipped dimension's weight never
enters the denominator), and returns `round(weighted_sum / total_weight, 2)`
when the total weight is positive and `null` when it is zero; it is a total
pure function (no exception, no mutation of either input) and maps a `None`
rating to `None`. -/
theorem c1_includes_exactly_populated_dimensions (p : UserProfile) (r : Rating) :
    calculate_weighted_rating p none = none ∧
    calculate_weighted_rating p (some r) =
      (if 0 < specTotalWeight p r
       then some (pyRound2 (specWeightedSum p r / (specTotalWeight p r : Rat)))
       else none) := by
  refine ⟨rfl, ?_⟩
  rw [calc_eq_spec]
  rcases Nat.eq_zero_or_pos (specTotalWeight p r) with h | h
  · simp [h]
  · rw [if_pos h, if_neg (Nat.pos_iff_ne_zero.mp h)]

theorem le_pyRound (x : Rat) (n : Int) (h : (n : Rat) ≤ x) : n ≤ pyRound x := by
  have hf : n ≤ ⌊x⌋ := Int.le_floor.mpr h
  unfold pyRound
  split_ifs <;> omega

theorem pyRound_le (x : Rat) (n : Int) (h : x ≤ (n : Rat)) : pyRound x ≤ n := by
  have hf : ⌊x⌋ ≤ n := by
    have h1 := Int.floor_le_floor h
    simpa using h1
  have key : 1 / 2 ≤ x - (⌊x⌋ : Rat) → ⌊x⌋ + 1 ≤ n := by
    intro hhalf
    rcases lt_or_eq_of_le hf with hlt | heq
    · omega
    · exfalso
      have hx : x ≤ ((⌊x⌋ : Int) : Rat) := by rw [heq]; exact h
      linarith
  unfold pyRound
  split_ifs with h1 h2 h3
  · exact hf
  · exact key (le_of_not_lt h1)
  · exact hf
  · exact key (le_of_not_lt h1)

theorem normalizedValue_pt (p : UserProfile) (v : Nat) :
    normalizedValue p Dim.practicalTheoretical v =
      ((1 : Rat) - |(v : Rat) - (p.practical_theoretical_preference : Rat)| / 100) * 4 + 1 := by
  simp [normalizedValue]

theorem normalizedValue_bounds (p : UserProfile)
    (hp : p.practical_theoretical_preference ≤ 100)
    (d : Dim) (v : Nat) (h1 : dimLB d ≤ v) (h2 : v ≤ dimUB d) :
    1 ≤ normalizedValue p d v ∧ normalizedValue p d v ≤ 5 := by
  by_cases hd : d = Dim.practicalTheoretical
  · subst hd
    rw [normalizedValue_pt]
    simp only [dimUB] at h2
    have hv : (v : Rat) ≤ 100 := by exact_mod_cast h2
    have hv0 : (0 : Rat) ≤ (v : Rat) := by positivity
    have hpQ : (p.practical_theoretical_preference : Rat) ≤ 100 := by exact_mod_cast hp
    have hp0 : (0 : Rat) ≤ (p.practical_theoretical_preference : Rat) := by positivity
    have habs : |(v : Rat) - (p.practical_theoretical_preference : Rat)| ≤ 100 := by
      rw [abs_le]
      constructor <;> linarith
    have habs0 : 0 ≤ |(v : Rat) - (p.practical_theoretical_preference : Rat)| :=
      abs_nonneg _
    constructor <;> linarith
  · have hub : v ≤ 5 := by
      cases d <;> simp_all [dimUB]
    have hlb : 1 ≤ v := by
      cases d <;> simp_all [dimLB]
    simp only [normalizedValue, if_neg hd]
    constructor
    · exact_mod_cast hlb
    · exact_mod_cast hub

theorem weightSum_cast (p : UserProfile) (L : List Dim) :
    (((L.map (weight p)).sum : Nat) : Rat) = (L.map (fun d => (weight p d : Rat))).sum := by
  induction L with
  | nil => simp
  | cons d L ih => simp [ih]

theorem contribs_bounds (p : UserProfile) (r : Rating)
    (hp : p.practical_theoretical_preference ≤ 100) :
    ∀ L : List Dim,
      (∀ d ∈ L, ∃ v, ratingValue r d = some v ∧ dimLB d ≤ v ∧ v ≤ dimUB d) →
      (L.map (fun d => (weight p d : Rat))).sum ≤
        (L.map (fun d => normalizedValue p d ((ratingValue r d).getD 0) * (weight p d : Rat))).sum ∧
      (L.map (fun d => normalizedValue p d ((ratingValue r d).getD 0) * (weight p d : Rat))).sum ≤
        5 * (L.map (fun d => (weight p d : Rat))).sum := by
  intro L
  induction L with
  | nil => intro _; simp
  | cons d L ih =>
    intro h
    obtain ⟨v, hv, hlb, hub⟩ := h d (List.mem_cons_self d L)
    have hrest := ih (fun d' hd' => h d' (List.mem_cons_of_mem _ hd'))
    have hb := normalizedValue_bounds p hp d v hlb hub
    have hw0 : (0 : Rat) ≤ (weight p d : Rat) := by positivity
    simp only [List.map_cons, List.sum_cons, hv, Option.getD_some]
    constructor
    · nlinarith [hb.1, hrest.1]
    · nlinarith [hb.2, hrest.2]

/-- Claim C3: for every valid profile (weights and preference within their
0-100 validators) and every valid rating (each populated dimension within its
validators), a non-null result of `calculate_weighted_rating` lies in
[1.0, 5.0]. -/
theorem c3_result_in_range (p : UserProfile) (r : Rating)
    (hp : validProfile p = true) (hr : validRating r = true)
    (x : Rat) (hx : calculate_weighted_rating p (some r) = some x) :
    1 ≤ x ∧ x ≤ 5 := by
  have hpref : p.practical_theoretical_preference ≤ 100 := by
    simp only [validProfile, Bool.and_eq_true, decide_eq_true_eq] at hp
    exact hp.2
  have hdims : ∀ d ∈ includedDims r,
      ∃ v, ratingValue r d = some v ∧ dimLB d ≤ v ∧ v ≤ dimUB d := by
    intro d hd
    rw [includedDims, List.mem_filter] at hd
    obtain ⟨hdm, hsome⟩ := hd
    obtain ⟨v, hv⟩ := Option.isSome_iff_exists.mp hsome
    refine ⟨v, hv, ?_⟩
    have hall := List.all_eq_true.mp hr d hdm
    rw [hv] at hall
    simp only [Bool.and_eq_true, decide_eq_true_eq] at hall
    exact hall
  have hb := contribs_bounds p r hpref (includedDims r) hdims
  rw [calc_eq_spec] at hx
  by_cases h0 : specTotalWeight p r = 0
  · rw [if_pos h0] at hx
    cases hx
  · rw [if_neg h0] at hx
    have hxv : pyRound2 (specWeightedSum p r / (specTotalWeight p r : Rat)) = x :=
      Option.some.inj hx
    have htwQ : (0 : Rat) < (specTotalWeight p r : Rat) := by
      have : 0 < specTotalWeight p r := Nat.pos_of_ne_zero h0
      exact_mod_cast this
    have hcast : ((specTotalWeight p r : Nat) : Rat) =
        ((includedDims r).map (fun d => (weight p d : Rat))).sum := weightSum_cast p _
    have hws1 : (specTotalWeight p r : Rat) ≤ specWeightedSum p r := by
      rw [hcast]
      exact hb.1
    have hws5 : specWeightedSum p r ≤ 5 * (specTotalWeight p r : Rat) := by
      rw [hcast]
      exact hb.2
    have hdiv1 : 1 ≤ specWeightedSum p r / (specTotalWeight p r : Rat) :=
      (one_le_div htwQ).mpr hws1
    have hdiv5 : specWeightedSum p r / (specTotalWeight p r : Rat) ≤ 5 :=
      (div_le_iff htwQ).mpr (by linarith)
    subst hxv
    unfold pyRound2
    set y := specWeightedSum p r / (specTotalWeight p r : Rat) with hy
    have hlo : (100 : Int) ≤ pyRound (y * 100) :=
      le_pyRound _ _ (by push_cast; linarith)
    have hhi : pyRound (y * 100) ≤ (500 : Int) :=
      pyRound_le _ _ (by push_cast; linarith)
    have hloQ : ((100 : Int) : Rat) ≤ (pyRound (y * 100) : Rat) := by exact_mod_cast hlo
    have hhiQ : (pyRound (y * 100) : Rat) ≤ ((500 : Int) : Rat) := by exact_mod_cast hhi
    constructor
    · rw [le_div_iff (by norm_num : (0 : Rat) < 100)]
      push_cast at hloQ ⊢
      linarith
    · rw [div_le_iff (by norm_num : (0 : Rat) < 100)]
      push_cast at hhiQ ⊢
      linarith

theorem calc_wdRating_eq :
    calculate_weighted_rating defaultProfile (some wdRating) = some 4 := by
  rw [calc_eq_spec]
  have h1 : specTotalWeight defaultProfile wdRating = 40 := by decide
  have hd : includedDims wdRating = [Dim.workload, Dim.difficulty] := by decide
  have h2 : specWeightedSum defaultProfile wdRating = 160 := by
    rw [specWeightedSum, hd]
    have hw : normalizedValue defaultProfile Dim.workload 3 = 3 := by
      rw [normalizedValue, if_neg (by decide)]
      norm_num
    have hdf : normalizedValue defaultProfile Dim.difficulty 5 = 5 := by
      rw [normalizedValue, if_neg (by decide)]
      norm_num
    simp only [List.map_cons, List.map_nil, List.sum_cons, List.sum_nil,
      show ratingValue wdRating Dim.workload = some 3 from rfl,
      show ratingValue wdRating Dim.difficulty = some 5 from rfl, Option.getD_some,
      show weight defaultProfile Dim.workload = 20 from rfl,
      show weight defaultProfile Dim.difficulty = 20 from rfl, hw, hdf]
    norm_num
  rw [h1, h2]
  norm_num [pyRound2, pyRound, Int.floor_ofNat]

/-- Witness for C3 at the spec scenario: default profile, rating with
workload 3 and difficulty 5, result 4.0. -/
theorem c3_result_in_range_witness :
    validProfile defaultProfile = true ∧ validRating wdRating = true ∧
    calculate_weighted_rating defaultProfile (some wdRating) = some 4 ∧
    (1 ≤ (4 : Rat) ∧ (4 : Rat) ≤ 5) :=
  ⟨by decide, by decide, calc_wdRating_eq,
   c3_result_in_range defaultProfile wdRating (by decide) (by decide) 4 calc_wdRating_eq⟩

/-- Claim C4: in `calculate_weighted_rating` the practical/theoretical
dimension contributes `(1 - abs(balance - preference) / 100) * 4 + 1` rather
than the raw 0-100 value; a balance equal to the preference contributes
exactly 5.0, and opposite extremes (0 against 100, 100 against 0) contribute
exactly 1.0. -/
theorem c4_balance_normalization (p : UserProfile) (b : Nat) :
    normalizedValue p Dim.practicalTheoretical b =
      ((1 : Rat) - |(b : Rat) - (p.practical_theoretical_preference : Rat)| / 100) * 4 + 1 ∧
    (b = p.practical_theoretical_preference →
      normalizedValue p Dim.practicalTheoretical b = 5) ∧
    (b = 0 → p.practical_theoretical_preference = 100 →
      normalizedValue p Dim.practicalTheoretical b = 1) ∧
    (b = 100 → p.practical_theoretical_preference = 0 →
      normalizedValue p Dim.practicalTheoretical b = 1) := by
  refine ⟨normalizedValue_pt p b, ?_, ?_, ?_⟩
  · intro hb
    subst hb
    rw [normalizedValue_pt]
    norm_num
  · intro hb hp
    subst hb
    rw [normalizedValue_pt, hp]
    norm_num
  · intro hb hp
    subst hb
    rw [normalizedValue_pt, hp]
    norm_num

/-- Witness for C4: preference 50 against balance 50 gives 5, preference 100
against balance 0 gives 1. -/
theorem c4_balance_normalization_witness :
    normalizedValue defaultProfile Dim.practicalTheoretical 50 = 5 ∧
    normalizedValue hundredPrefProfile Dim.practicalTheoretical 0 = 1 :=
  ⟨(c4_balance_normalization defaultProfile 50).2.1 rfl,
   (c4_balance_normalization hundredPrefProfile 0).2.2.1 rfl rfl⟩

/-- Claim C6: when the actor is the rating's owner, `flag_rating` reports the
self-flag error, creates no `RatingFlag` row and leaves the flag store
unchanged, for every store and reason. -/
theorem c6_self_flag_rejected (checkFlags saveFlags : List RatingFlag)
    (r : Rating) (reason : String) :
    flag_rating checkFlags saveFlags r r.user reason =
      (FlagOutcome.selfFlagMessage, saveFlags) := by
  simp [flag_rating]

/-- Demonstration for C5: when the duplicate pre-check sees no flag but a
concurrent flag for the same `(rating, actor)` pair is already present at save
time, `flag_rating` hits the unique constraint with no handler and surfaces an
uncaught integrity error instead of the informational duplicate outcome; the
purely sequential double flag (flag visible at check time) is the
informational no-op the claim describes, leaving exactly the one existing
flag. -/
theorem c5_save_time_duplicate_uncaught :
    flag_rating [] [flagFixture] ownedRating 2 "spam" =
      (FlagOutcome.uncaughtIntegrityError, [flagFixture]) ∧
    flag_rating [flagFixture] [flagFixture] ownedRating 2 "spam" =
      (FlagOutcome.alreadyFlaggedInfo, [flagFixture]) := by
  constructor <;> decide

/-- Demonstration for C2: a store holding one disabled five-star rating of
course 1. The course detail aggregate excludes it (average `None`, count 0),
but the course list annotation of views.py lines 67-70 still averages and
counts it (average 5, count 1): the list view's aggregate is not computed
only over ratings with `is_disabled = false`. -/
theorem c2_list_annotation_counts_disabled :
    courseDetailAgg disabledOnlyDb 1 = (none, 0) ∧
    courseListAgg disabledOnlyDb 1 = (some 5, 1) := by
  constructor
  · rfl
  · have h : courseListRatings disabledOnlyDb 1 =
        [{ emptyRating with rating := 5, is_disabled := true }] := by decide
    simp only [courseListAgg, h, List.map_cons, List.map_nil, List.length_cons,
      List.length_nil, listAvg]
    norm_num

theorem pairCount_map_of_preserve (f : Rating → Rating)
    (hf : ∀ r, (f r).course = r.course ∧ (f r).user = r.user)
    (db : List Rating) (c u : Nat) :
    pairCount (db.map f) c u = pairCount db c u := by
  unfold pairCount
  rw [List.filter_map, List.length_map]
  congr 1
  apply List.filter_congr
  intro r _
  simp [Function.comp, (hf r).1, (hf r).2]

theorem pairCount_append (db1 db2 : List Rating) (c u : Nat) :
    pairCount (db1 ++ db2) c u = pairCount db1 c u + pairCount db2 c u := by
  simp [pairCount, List.filter_append]

theorem pairCount_eq_zero_of_not_hasPair (db : List Rating) (c u : Nat)
    (h : hasPair db c u = false) : pairCount db c u = 0 := by
  rw [pairCount, List.length_eq_zero, List.filter_eq_nil]
  intro r hr
  rw [hasPair, List.any_eq_false] at h
  exact fun hc => by simp [h r hr] at hc

/-- Claim C9: at most one rating per `(course, user)` pair is preserved by the
`add_rating` handler under the `uniq_user_course` constraint; a uniqueness
violation at insert time (pair absent at the existence pre-check, present at
save) is reported with the dedicated one-rating-per-course conflict message,
distinct from the created and updated outcomes, and leaves the store
unchanged. -/
theorem c9_one_rating_per_course (checkDb saveDb : List Rating)
    (rid c u : Nat) (d : RatingFormData) (hs : atMostOnePerPair saveDb) :
    atMostOnePerPair (add_rating checkDb saveDb rid c u d).2 ∧
    (findExisting checkDb c u = none → hasPair saveDb c u = true →
      add_rating checkDb saveDb rid c u d =
        (AddOutcome.oneRatingPerCourseMessage, saveDb)) ∧
    AddOutcome.oneRatingPerCourseMessage ≠ AddOutcome.createdMessage ∧
    AddOutcome.oneRatingPerCourseMessage ≠ AddOutcome.updatedMessage := by
  refine ⟨?_, ?_, by decide, by decide⟩
  · unfold add_rating
    cases hfe : findExisting checkDb c u with
    | some r0 =>
      intro c' u'
      simp only
      rw [pairCount_map_of_preserve
        (fun r => if r.course == c && r.user == u then updateRatingFields r d else r)
        (by
          intro r
          by_cases h : (r.course == c && r.user == u) = true <;>
            simp [h, updateRatingFields])]
      exact hs c' u'
    | none =>
      by_cases hp : hasPair saveDb c u = true
      · simp only [hp, if_true]
        exact hs
      · have hp' : hasPair saveDb c u = false := by
          simpa using hp
        simp only [hp', Bool.false_eq_true, if_false]
        intro c' u'
        rw [pairCount_append]
        by_cases hcu : c' = c ∧ u' = u
        · obtain ⟨rfl, rfl⟩ := hcu
          rw [pairCount_eq_zero_of_not_hasPair _ _ _ hp']
          simp [pairCount, createRating, List.filter]
        · have hone : pairCount [createRating rid c u d] c' u' = 0 := by
            rw [pairCount, List.length_eq_zero, List.filter_eq_nil]
            intro r hr
            simp only [List.mem_singleton] at hr
            subst hr
            simp only [createRating, Bool.and_eq_true, beq_iff_eq]
            rintro ⟨rfl, rfl⟩
            exact hcu ⟨rfl, rfl⟩
          rw [hone]
          simpa using hs c' u'
  · intro hnone hpair
    unfold add_rating
    rw [hnone, hpair]
    rfl

/-- Witness for C9: empty check snapshot, save snapshot already holding a
rating for `(course 1, user 1)`; the handler reports the conflict message and
changes nothing. -/
theorem c9_one_rating_per_course_witness :
    atMostOnePerPair ((add_rating [] [emptyRating] 2 1 1 emptyFormData).2) ∧
    add_rating [] [emptyRating] 2 1 1 emptyFormData =
      (AddOutcome.oneRatingPerCourseMessage, [emptyRating]) := by
  have hs : atMostOnePerPair [emptyRating] := by
    intro c u
    have h := List.length_filter_le
      (fun r => r.course == c && r.user == u) [emptyRating]
    simpa [pairCount] using h
  have h := c9_one_rating_per_course [] [emptyRating] 2 1 1 emptyFormData hs
  exact ⟨h.1, h.2.1 rfl (by decide)⟩

/-- Claim C8: for every submitted importance level in 1..5, the profile form
stores the weight from the exact table 1→0, 2→10, 3→20, 4→50, 5→80 on each of
the ten dimension weight fields; the table is not a linear interpolation (the
step from level 3 to 4 differs from the step from 2 to 3). -/
theorem c8_importance_scale_table (i : Int) (h1 : 1 ≤ i) (h5 : i ≤ 5)
    (d : ProfileFormData) (inst : UserProfile) :
    (d.workload_importance = some i →
      (userProfileFormSave d inst).workload_weight = importance_to_weight i) ∧
    (d.difficulty_importance = some i →
      (userProfileFormSave d inst).difficulty_weight = importance_to_weight i) ∧
    (d.learning_gain_importance = some i →
      (userProfileFormSave d inst).learning_gain_weight = importance_to_weight i) ∧
    (d.teaching_quality_importance = some i →
      (userProfileFormSave d inst).teaching_quality_weight = importance_to_weight i) ∧
    (d.assessment_fairness_importance = some i →
      (userProfileFormSave d inst).assessment_fairness_weight = importance_to_weight i) ∧
    (d.practical_theoretical_importance = some i →
      (userProfileFormSave d inst).practical_theoretical_weight = importance_to_weight i) ∧
    (d.relevance_importance = some i →
      (userProfileFormSave d inst).relevance_weight = importance_to_weight i) ∧
    (d.materials_importance = some i →
      (userProfileFormSave d inst).materials_weight = importance_to_weight i) ∧
    (d.support_importance = some i →
      (userProfileFormSave d inst).support_weight = importance_to_weight i) ∧
    (d.organization_importance = some i →
      (userProfileFormSave d inst).organization_weight = importance_to_weight i) ∧
    (importance_to_weight 1 = 0 ∧ importance_to_weight 2 = 10 ∧
     importance_to_weight 3 = 20 ∧ importance_to_weight 4 = 50 ∧
     importance_to_weight 5 = 80) ∧
    importance_to_weight 4 - importance_to_weight 3 ≠
      importance_to_weight 3 - importance_to_weight 2 := by
  refine ⟨?_, ?_, ?_, ?_, ?_, ?_, ?_, ?_, ?_, ?_, by decide, by decide⟩ <;>
    · intro h
      simp [userProfileFormSave, applyImportance, h, h1, h5]

/-- Witness for C8: importance level 4 everywhere stores weight 50. -/
theorem c8_importance_scale_table_witness :
    (userProfileFormSave allFourData defaultProfile).workload_weight =
      importance_to_weight 4 ∧
    (userProfileFormSave allFourData defaultProfile).practical_theoretical_weight =
      importance_to_weight 4 := by
  have h := c8_importance_scale_table 4 (by decide) (by decide) allFourData defaultProfile
  exact ⟨h.1 rfl, h.2.2.2.2.2.1 rfl⟩

/-- Claim C10: on the create and update branches of `add_rating` and on
`edit_rating`, a submitted dimension value of 0 is coerced to null by the
`or None` idiom before persistence; in particular a practical/theoretical
balance of 0 is stored as null and its dimension is excluded from the
weighted-rating computation's included dimensions. -/
theorem c10_zero_coerced_to_null (rid c u : Nat) (d : RatingFormData) (r : Rating) :
    (∀ dm : Dim, formValue d dm = some 0 →
      ratingValue (createRating rid c u d) dm = none) ∧
    (∀ dm : Dim, formValue d dm = some 0 →
      ratingValue (updateRatingFields r d) dm = none) ∧
    (∀ dm : Dim, formValue d dm = some 0 →
      ratingValue (editRatingFields r d) dm = none) ∧
    (d.practical_theoretical_balance = some 0 →
      (createRating rid c u d).practical_theoretical_balance = none ∧
      Dim.practicalTheoretical ∉ includedDims (createRating rid c u d)) := by
  refine ⟨?_, ?_, ?_, ?_⟩
  · intro dm h
    cases dm <;> simp_all [formValue, ratingValue, createRating, pyOrNone]
  · intro dm h
    cases dm <;> simp_all [formValue, ratingValue, updateRatingFields, pyOrNone]
  · intro dm h
    cases dm <;> simp_all [formValue, ratingValue, editRatingFields, pyOrNone]
  · intro h
    have hb : (createRating rid c u d).practical_theoretical_balance = none := by
      simp [createRating, pyOrNone, h]
    refine ⟨hb, ?_⟩
    rw [includedDims, List.mem_filter]
    rintro ⟨-, hsome⟩
    rw [show ratingValue (createRating rid c u d) Dim.practicalTheoretical =
      (createRating rid c u d).practical_theoretical_balance from rfl, hb] at hsome
    cases hsome

/-- Witness for C10: a form submission with balance 0 stores null and the
balance dimension is excluded. -/
theorem c10_zero_coerced_to_null_witness :
    ratingValue (createRating 1 1 1 zeroBalData) Dim.practicalTheoretical = none ∧
    Dim.practicalTheoretical ∉ includedDims (createRating 1 1 1 zeroBalData) := by
  have h := c10_zero_coerced_to_null 1 1 1 zeroBalData emptyRating
  exact ⟨h.1 Dim.practicalTheoretical rfl, (h.2.2.2 rfl).2⟩

theorem specWeightedSum_bal49 :
    specWeightedSum defaultProfile bal49Rating = 496 / 5 := by
  have hd : includedDims bal49Rating = [Dim.practicalTheoretical] := by decide
  rw [specWeightedSum, hd]
  simp only [List.map_cons, List.map_nil, List.sum_cons, List.sum_nil,
    show ratingValue bal49Rating Dim.practicalTheoretical = some 49 from rfl,
    Option.getD_some,
    show weight defaultProfile Dim.practicalTheoretical = 20 from rfl]
  rw [normalizedValue_pt,
    show defaultProfile.practical_theoretical_preference = 50 from rfl]
  push_cast
  rw [show (49 : Rat) - 50 = -1 from by norm_num, abs_neg, abs_one]
  norm_num

/-- Counterexample for C7: with the default profile and a rating whose only
populated dimension is a practical/theoretical balance of 49, the accumulated
`weighted_sum` is already 496/5 = 99.2 before the final division, so the
division is not the only source of fractional output. -/
theorem c7_fractional_before_division_cex :
    ¬ ∃ n : Int, (weightedTotals defaultProfile bal49Rating).1 = (n : Rat) := by
  rintro ⟨n, hn⟩
  rw [show (weightedTotals defaultProfile bal49Rating).1 =
      specWeightedSum defaultProfile bal49Rating from by rw [weightedTotals_eq_spec],
    specWeightedSum_bal49] at hn
  have h5 : (496 : Rat) = n * 5 := by
    field_simp at hn
    linarith
  have hz : (496 : Int) = n * 5 := by exact_mod_cast h5
  omega

theorem contribs_natCast_of_no_pt (p : UserProfile) (r : Rating) :
    ∀ L : List Dim, (∀ d ∈ L, d ≠ Dim.practicalTheoretical) →
      ∃ n : Nat,
        (L.map (fun d => normalizedValue p d ((ratingValue r d).getD 0) * (weight p d : Rat))).sum
          = (n : Rat) := by
  intro L
  induction L with
  | nil => exact fun _ => ⟨0, by simp⟩
  | cons a L ih =>
    intro h
    obtain ⟨n, hn⟩ := ih (fun d hd => h d (List.mem_cons_of_mem _ hd))
    have ha : a ≠ Dim.practicalTheoretical := h a (List.mem_cons_self a L)
    refine ⟨(ratingValue r a).getD 0 * weight p a + n, ?_⟩
    rw [List.map_cons, List.sum_cons, hn,
      show normalizedValue p a ((ratingValue r a).getD 0) =
        (((ratingValue r a).getD 0 : Nat) : Rat) from by
          rw [normalizedValue, if_neg ha]]
    push_cast
    ring

/-- Claim C7 as amended: all weights and dimension scores are integers, and
when the practical/theoretical balance is absent the accumulated weighted sum
is an integer, so only the final division introduces fractional output; when
the balance is present its normalization can already contribute fractional
values before the division. The final division's result is rounded to two
decimal places half-to-even (an exact half rounds to the even neighbour). -/
theorem c7_integrality_and_rounding (p : UserProfile) (r : Rating) :
    (r.practical_theoretical_balance = none →
      ∃ n : Nat, (weightedTotals p r).1 = (n : Rat)) ∧
    (∀ q : Int, pyRound ((q : Rat) + 1/2) % 2 = 0 ∧
      (pyRound ((q : Rat) + 1/2) = q ∨ pyRound ((q : Rat) + 1/2) = q + 1)) ∧
    ((weightedTotals p r).2 ≠ 0 →
      calculate_weighted_rating p (some r) =
        some (pyRound2 ((weightedTotals p r).1 / ((weightedTotals p r).2 : Rat)))) := by
  refine ⟨?_, ?_, ?_⟩
  · intro hb
    have hnopt : ∀ d ∈ includedDims r, d ≠ Dim.practicalTheoretical := by
      intro d hd
      rw [includedDims, List.mem_filter] at hd
      intro hdeq
      subst hdeq
      rw [show ratingValue r Dim.practicalTheoretical =
        r.practical_theoretical_balance from rfl, hb] at hd
      cases hd.2
    obtain ⟨n, hn⟩ := contribs_natCast_of_no_pt p r (includedDims r) hnopt
    exact ⟨n, by rw [weightedTotals_eq_spec]; exact hn⟩
  · intro q
    have hfl : ⌊(q : Rat) + 1/2⌋ = q := by
      rw [Int.floor_eq_iff]
      constructor
      · linarith
      · linarith
    unfold pyRound
    rw [hfl]
    rw [show (q : Rat) + 1/2 - (q : Int) = 1/2 by ring]
    rw [if_neg (by norm_num), if_neg (by norm_num)]
    by_cases hq : q % 2 = 0
    · rw [if_pos hq]
      exact ⟨hq, Or.inl rfl⟩
    · rw [if_neg hq]
      exact ⟨by omega, Or.inr rfl⟩
  · intro h
    simp only [calculate_weighted_rating]
    rw [if_neg h]

/-- Witness for the amended C7: the workload/difficulty rating has no balance
value, so its weighted sum is an integral rational; its total weight is
nonzero, so the result is the rounded division. -/
theorem c7_integrality_and_rounding_witness :
    (∃ n : Nat, (weightedTotals defaultProfile wdRating).1 = (n : Rat)) ∧
    calculate_weighted_rating defaultProfile (some wdRating) =
      some (pyRound2 ((weightedTotals defaultProfile wdRating).1 /
        ((weightedTotals defaultProfile wdRating).2 : Rat))) :=
  ⟨(c7_integrality_and_rounding defaultProfile wdRating).1 rfl,
   (c7_integrality_and_rounding defaultProfile wdRating).2.2 (by decide)⟩
